import Mathlib

/-!
Verification of the GroceryPricingStudy data-processing pipeline
(census normalization, product cleaning, temporal aggregation, keyword
extraction and the ZIP-code merge) against its natural-language
specification.  The Python/pandas code is shallowly embedded: dataframes
become lists of structures, pandas floats become the `PValue` type below
(rationals extended with NaN and signed infinities), and operations that
can raise become `Except`-valued functions.
-/

namespace Grocery

/-- Model of a pandas float64 cell value: a finite rational, NaN
(the missing-value marker), or a signed infinity. -/
inductive PValue where
  | nan : PValue
  | inf : PValue
  | ninf : PValue
  | fin : ℚ → PValue
deriving DecidableEq, Repr

/-- IEEE-754 style division as performed by pandas column division:
`0/0 = NaN`, `c/0 = ±inf` for `c ≠ 0`, NaN propagates. -/
def pdiv : PValue → PValue → PValue
  | .nan, _ => .nan
  | _, .nan => .nan
  | .inf, .inf => .nan
  | .inf, .ninf => .nan
  | .ninf, .inf => .nan
  | .ninf, .ninf => .nan
  | .inf, .fin b => if b < 0 then .ninf else .inf
  | .ninf, .fin b => if b < 0 then .inf else .ninf
  | .fin _, .inf => .fin 0
  | .fin _, .ninf => .fin 0
  | .fin a, .fin b =>
      if b = 0 then (if a = 0 then .nan else if 0 < a then .inf else .ninf)
      else .fin (a / b)

/-- IEEE-754 style addition (used for the combined Other Race count). -/
def padd : PValue → PValue → PValue
  | .nan, _ => .nan
  | _, .nan => .nan
  | .inf, .ninf => .nan
  | .ninf, .inf => .nan
  | .inf, _ => .inf
  | _, .inf => .inf
  | .ninf, _ => .ninf
  | _, .ninf => .ninf
  | .fin a, .fin b => .fin (a + b)

/-- `Series.fillna(0)` on a single cell: NaN is replaced by 0, every
other value (including infinities) is kept. -/
def fillna0 (v : PValue) : PValue :=
  if v = .nan then .fin 0 else v

theorem fillna0_nan : fillna0 PValue.nan = PValue.fin 0 := rfl

theorem fillna0_fin (q : ℚ) : fillna0 (PValue.fin q) = PValue.fin q := rfl

theorem fillna0_inf : fillna0 PValue.inf = PValue.inf := rfl

theorem fillna0_ninf : fillna0 PValue.ninf = PValue.ninf := rfl

/-! ## Census Normalizer (`process_census_data` in `census_cleaning.py`) -/

/-- One raw census row: ZIP code plus raw demographic counts, as read
from `cleaned_census_data.csv` (a missing cell reads as NaN). -/
structure CensusRaw where
  zip : String
  totalPopulation : PValue
  povertyCount : PValue
  snapHouseholds : PValue
  whitePop : PValue
  blackPop : PValue
  amIndianPop : PValue
  pacificPop : PValue
  asianPop : PValue
  otherRacePop : PValue
  twoOrMorePop : PValue
  hsGrad : PValue
  bachelors : PValue
  masters : PValue
  doctorate : PValue
deriving DecidableEq, Repr

/-- One processed census row: the count columns are replaced by
percentage columns; the count columns themselves are dropped. -/
structure CensusProcessed where
  zip : String
  totalPopulation : PValue
  povertyRate : PValue
  snapRate : PValue
  whitePct : PValue
  blackPct : PValue
  amIndianPct : PValue
  asianPct : PValue
  otherRacePct : PValue
  twoOrMorePct : PValue
  hsPct : PValue
  baPct : PValue
  maPct : PValue
  phdPct : PValue
deriving DecidableEq, Repr

/-- One percentage column: the count divided by Total Population, with
the dataframe-wide `fillna(0)` applied afterwards. -/
def censusPct (count total : PValue) : PValue :=
  fillna0 (pdiv count total)

/-- The per-row action of `process_census_data`: each percentage field is
count / Total Population, the trailing `fillna(0)` is applied to every
column, and the raw count columns are dropped. -/
def process_census_row (r : CensusRaw) : CensusProcessed :=
  { zip := r.zip
    totalPopulation := fillna0 r.totalPopulation
    povertyRate := censusPct r.povertyCount r.totalPopulation
    snapRate := censusPct r.snapHouseholds r.totalPopulation
    whitePct := censusPct r.whitePop r.totalPopulation
    blackPct := censusPct r.blackPop r.totalPopulation
    amIndianPct := censusPct r.amIndianPop r.totalPopulation
    asianPct := censusPct r.asianPop r.totalPopulation
    otherRacePct := censusPct (padd r.otherRacePop r.pacificPop) r.totalPopulation
    twoOrMorePct := censusPct r.twoOrMorePop r.totalPopulation
    hsPct := censusPct r.hsGrad r.totalPopulation
    baPct := censusPct r.bachelors r.totalPopulation
    maPct := censusPct r.masters r.totalPopulation
    phdPct := censusPct r.doctorate r.totalPopulation }

/-- `process_census_data` maps the row transformation over the table. -/
def process_census_data (rows : List CensusRaw) : List CensusProcessed :=
  rows.map process_census_row

/-- The twelve raw counts of a row, in the order of the percentage
columns (Other Race is the sum of Other Race and Pacific Islander). -/
def CensusRaw.pctCounts (r : CensusRaw) : List PValue :=
  [r.povertyCount, r.snapHouseholds, r.whitePop, r.blackPop, r.amIndianPop,
   r.asianPop, padd r.otherRacePop r.pacificPop, r.twoOrMorePop,
   r.hsGrad, r.bachelors, r.masters, r.doctorate]

/-- The twelve percentage fields of a processed row, in the same order. -/
def CensusProcessed.pcts (p : CensusProcessed) : List PValue :=
  [p.povertyRate, p.snapRate, p.whitePct, p.blackPct, p.amIndianPct,
   p.asianPct, p.otherRacePct, p.twoOrMorePct,
   p.hsPct, p.baPct, p.maPct, p.phdPct]

theorem pcts_process_row (r : CensusRaw) :
    (process_census_row r).pcts =
      r.pctCounts.map (fun c => censusPct c r.totalPopulation) := rfl

/-! ## String and CSV-cell utilities shared by the Product Cleaner -/

/-- A cell of an object-dtype dataframe column: a string, a parsed
number, or NaN (the marker pandas uses for a missing value). -/
inductive Cell where
  | str : String → Cell
  | num : ℚ → Cell
  | nan : Cell
deriving DecidableEq, Repr

/-- Python `str.lower()`: lowercase every character. -/
def pyLower (s : String) : String :=
  String.mk (s.data.map Char.toLower)

/-- Python `str.strip()` on a character list (ASCII whitespace). -/
def pyStrip (cs : List Char) : List Char :=
  ((cs.dropWhile Char.isWhitespace).reverse.dropWhile Char.isWhitespace).reverse

/-- Characters matched by the regex class `[\d.]`. -/
def isDigitDot (c : Char) : Bool := c.isDigit || c == '.'

/-- First maximal run of characters satisfying `p` (the first match of
the regex `p+` when scanning left to right), or `none` when no
character satisfies `p`. -/
def firstRun (p : Char → Bool) : List Char → Option (List Char)
  | [] => none
  | c :: rest => if p c then some (c :: rest.takeWhile p) else firstRun p rest

/-- Numeric value of a digit list read in base 10. -/
def digitsVal (ds : List Char) : ℕ :=
  ds.foldl (fun a c => 10 * a + (c.toNat - '0'.toNat)) 0

/-- Python `float()` on a string of digits and periods: accepted iff the
string is non-empty, contains at most one period, and contains at least
one digit ("12", "12.", ".5", "1.5" parse; "", ".", "1.2.3" raise
ValueError, modelled as `none`). -/
def pyFloatRun (cs : List Char) : Option ℚ :=
  if cs.all isDigitDot then
    if (cs.filter (· == '.')).length = 0 then
      if cs.isEmpty then none else some (digitsVal cs)
    else if (cs.filter (· == '.')).length = 1 then
      let ip := cs.takeWhile (· ≠ '.')
      let fp := (cs.dropWhile (· ≠ '.')).tail
      if ip.isEmpty && fp.isEmpty then none
      else some ((digitsVal ip : ℚ) + (digitsVal fp : ℚ) / (10 ^ fp.length))
    else none
  else none

/-- Python `str()` applied to a cell value, as done by
`str(size)` inside `process_size` (`str(nan)` is the string "nan";
numeric cells do not arise for the Size column, which is read as an
object column; they are rendered via `toString` as an approximation). -/
def str_of_cell : Cell → String
  | .str s => s
  | .num q => toString q
  | .nan => "nan"

/-- `pd.to_numeric(x, errors="coerce")` on one cell followed by
`.fillna(0)`: numbers pass through, NaN and unparseable strings become
0, numeric strings (optional sign, digits, optional period) parse. -/
def to_numeric_fillna0 (c : Cell) : ℚ :=
  match c with
  | .num q => q
  | .nan => 0
  | .str s =>
      match pyStrip s.data with
      | '-' :: rest => ((pyFloatRun rest).map (fun q => -q)).getD 0
      | '+' :: rest => (pyFloatRun rest).getD 0
      | t => (pyFloatRun t).getD 0

/-! ## Product Cleaner (`clean_product_data` in `product_cleaning.py`) -/

/-- `List.replicate n '0'` — the zeros inserted by `str.zfill`. -/
def zeros (n : ℕ) : List Char := List.replicate n '0'

/-- Python `str.zfill(width)`: if the string is already at least `width`
characters it is returned unchanged; otherwise ASCII '0' characters are
inserted on the left, after a leading '+' or '-' sign when present. -/
def zfill (width : ℕ) (s : String) : String :=
  if width ≤ s.data.length then s
  else
    match s.data with
    | [] => String.mk (zeros width)
    | c :: rest =>
        if c = '+' ∨ c = '-' then
          String.mk (c :: (zeros (width - s.data.length) ++ rest))
        else
          String.mk (zeros (width - s.data.length) ++ (c :: rest))

/-- `pad_location_id`: left-pad the Location ID to 8 characters. -/
def pad_location_id (location_id : String) : String := zfill 8 location_id

/-- Substring test: `needle in haystack` in Python. -/
def containsSub (needle haystack : String) : Bool :=
  decide (List.IsInfix needle.data haystack.data)

/-- `classify_product`: lowercases the description and tests for the
substrings "egg" then "bread".  `description.lower()` raises an
AttributeError when the cell is not a string (a missing description is
a float NaN), modelled as `Except.error`. -/
def classify_product : Cell → Except String String
  | .str d =>
      let desc := pyLower d
      .ok (if containsSub "egg" desc then "Egg"
           else if containsSub "bread" desc then "Bread"
           else "Other")
  | _ => .error "AttributeError"

/-- `extract_quantity`: the first match of the regex `([\d.]+)` passed
to Python `float`, `-1` when there is no match; `float` raises
(`Except.error`) when the matched run is not a well-formed number
(e.g. a bare "."). -/
def extract_quantity (size : String) : Except Unit ℚ :=
  match firstRun isDigitDot size.data with
  | none => .ok (-1)
  | some run =>
      match pyFloatRun run with
      | some q => .ok q
      | none => .error ()

/-- `extract_uom`: the first match of the regex `[a-zA-Z]+.*$` —
everything from the first ASCII letter to the end of the string —
then `.strip()`; "unit" when the string has no letter.  (Faithful for
strings without newline characters, the case for CSV size cells.) -/
def extract_uom (size : String) : String :=
  let rest := size.data.dropWhile (fun c => !c.isAlpha)
  if rest.isEmpty then "unit" else String.mk (pyStrip rest)

/-- Modelled from the spec: the claim's reading of the unit-of-measure
rule, "the trailing alphabetic run of the string or the default "unit"
when absent" — the maximal all-letter suffix of the size string. -/
def spec_trailing_alpha_uom (size : String) : String :=
  let run := (size.data.reverse.takeWhile Char.isAlpha).reverse
  if run.isEmpty then "unit" else String.mk run

/-- A product row after the per-column transformations of
`clean_product_data` (padding, classification, size parsing, price
normalization) and before the inactive filter and deduplication. -/
structure ProductRow where
  productId : String
  locationId : String
  category : String
  quantity : ℚ
  uom : String
  regularPrice : ℚ
  promoPrice : ℚ
  pricePerUnit : PValue
  promoPerUnit : PValue
  stockLevel : Cell
  dateRetrieved : String
deriving DecidableEq, Repr

/-- The inactive-items mask: stock level lowercases to "unknown"
(`.str.lower()` leaves a non-string cell as NaN, which compares
unequal) and both normalized prices are 0. -/
def ProductRow.inactive (r : ProductRow) : Bool :=
  (match r.stockLevel with
   | .str s => pyLower s == "unknown"
   | _ => false)
  && r.regularPrice == 0 && r.promoPrice == 0

/-- `df.loc[~inactive_items_mask]`: keep exactly the non-inactive rows. -/
def filter_inactive (rows : List ProductRow) : List ProductRow :=
  rows.filter (fun r => !r.inactive)

/-- The deduplication key of `drop_duplicates`. -/
def dedup_key (r : ProductRow) : String × String × String :=
  (r.productId, r.locationId, r.dateRetrieved)

/-- `df.drop_duplicates(subset=[...])`: keep the first row of each
(product, location, date) key; `seen` accumulates the keys kept so far. -/
def drop_duplicates_aux (seen : List (String × String × String)) :
    List ProductRow → List ProductRow
  | [] => []
  | r :: rest =>
      if dedup_key r ∈ seen then drop_duplicates_aux seen rest
      else r :: drop_duplicates_aux (dedup_key r :: seen) rest

def drop_duplicates (rows : List ProductRow) : List ProductRow :=
  drop_duplicates_aux [] rows

/-- The row-dropping portion of `clean_product_data` after the
per-column transformations: the inactive filter then deduplication. -/
def clean_product_rows (rows : List ProductRow) : List ProductRow :=
  drop_duplicates (filter_inactive rows)

/-! ## Temporal Aggregator (`product_grouped_df` in `zip_merge.py`) -/

/-- One cleaned product observation as seen by the aggregation step.
Dates are modelled as naturals ordered like the parsed datetimes. -/
structure Obs where
  productId : String
  locationId : String
  quantity : ℚ
  uom : String
  brand : String
  category : String
  description : String
  dateRetrieved : ℕ
  pricePerUnit : PValue
  promoPrice : ℚ
  promoPerUnit : PValue
deriving DecidableEq, Repr

/-- The seven-column grouping key of `product_grouped_df`. -/
def Obs.groupKey (o : Obs) :
    String × String × ℚ × String × String × String × String :=
  (o.productId, o.locationId, o.quantity, o.uom, o.brand, o.category,
   o.description)

/-- `Most_Recent_Date=("Date Retrieved", "max")` over one group. -/
def Most_Recent_Date (g : List Obs) : Option ℕ :=
  (g.map (fun o => o.dateRetrieved)).max?

/-- `Most_Recent_Price=("Price per Unit", lambda x: x.iloc[-1] if not
x.empty else None)` over one group, with the later
`fillna({"Most_Recent_Price": 0})`: the per-unit price of the *last row
of the group in input order* (not of the row with the maximal date). -/
def Most_Recent_Price (g : List Obs) : PValue :=
  fillna0 (match g.getLast? with
           | some o => o.pricePerUnit
           | none => .nan)

/-- `Promo_Observations=("Promo Price", lambda x: (x > 0).sum())`. -/
def Promo_Observations (g : List Obs) : ℕ :=
  (g.filter (fun o => decide (0 < o.promoPrice))).length

/-- `Total_Observations=("Date Retrieved", "count")`. -/
def Total_Observations (g : List Obs) : ℕ := g.length

/-- Rounding to two decimal places, as in `.round(2)`. -/
def round2 (q : ℚ) : ℚ := (round (q * 100) : ℤ) / 100

/-- `Promo_Frequency = (Promo_Observations / Total_Observations)
.fillna(0).round(2)`; the 0/0 NaN of an empty group becomes 0. -/
def Promo_Frequency (g : List Obs) : ℚ :=
  if g.length = 0 then 0
  else round2 ((Promo_Observations g : ℚ) / (Total_Observations g : ℚ))

/-! ## Keyword Extractor (`clean_keyword` / `keyword_list`) -/

/-- Python `str.split()` with no separator: split on whitespace runs,
discarding empty pieces (`acc` holds the reversed current word). -/
def pySplitAux : List Char → List Char → List String
  | [], acc => if acc.isEmpty then [] else [String.mk acc.reverse]
  | c :: rest, acc =>
      if c.isWhitespace then
        if acc.isEmpty then pySplitAux rest []
        else String.mk acc.reverse :: pySplitAux rest []
      else pySplitAux rest (c :: acc)

def pySplit (s : String) : List String := pySplitAux s.data []

/-- `clean_keyword`: strip the non-alphabetic characters
(`re.sub(r"[^a-zA-Z]", "", word)`), lowercase, and return `None` for
the excluded words "egg", "eggs", "bread". -/
def clean_keyword (word : String) : Option String :=
  let w := String.mk ((word.data.filter Char.isAlpha).map Char.toLower)
  if w = "egg" ∨ w = "eggs" ∨ w = "bread" then none else some w

/-- One comprehension step of `keyword_list`: a word survives when
`clean_keyword` returns a truthy value, i.e. neither `None` nor the
empty string. -/
def surviving (word : String) : Option String :=
  match clean_keyword word with
  | none => none
  | some w => if w = "" then none else some w

/-- `keyword_list`: extend the accumulator with the surviving cleaned
words of every description token list; the sentinel `["other"]` when
nothing survives. -/
def keyword_list (description_lists : List (List String)) : List String :=
  let category_list :=
    description_lists.flatMap (fun word_list => word_list.filterMap surviving)
  if category_list.isEmpty then ["other"] else category_list

/-- `Description List`: `description.lower().split()`, built by the
aggregator before the keyword grouping. -/
def description_tokens (d : String) : List String := pySplit (pyLower d)

/-- The Keyword Extractor for one (location, category) group, given the
descriptions of the group's aggregate rows. -/
def group_keywords (descriptions : List String) : List String :=
  keyword_list (descriptions.map description_tokens)

/-! ## Spatial/ZIP Joiner (`zip_merge.py`) -/

/-- Keep the first occurrence of each element (`seen` accumulates the
elements already emitted). -/
def dedupFirstAux {α : Type} [DecidableEq α] (seen : List α) : List α → List α
  | [] => []
  | a :: rest =>
      if a ∈ seen then dedupFirstAux seen rest
      else a :: dedupFirstAux (a :: seen) rest

def dedupFirst {α : Type} [DecidableEq α] (l : List α) : List α :=
  dedupFirstAux [] l

/-- Insertion into a list sorted by `Ord String`. -/
def insertSorted (s : String) : List String → List String
  | [] => [s]
  | t :: rest =>
      match compare s t with
      | .gt => t :: insertSorted s rest
      | _ => s :: t :: rest

/-- Ascending string sort (pandas `groupby` sorts its keys). -/
def sortStrings (l : List String) : List String :=
  l.foldr insertSorted []

/-- `count_store_chains` / `collections.Counter`: chain name mapped to
its number of occurrences, keyed in order of first appearance. -/
def counter (l : List String) : List (String × ℕ) :=
  (dedupFirst l).map (fun s => (s, l.count s))

/-- Pandas column `mean` with the default `skipna=True`: the mean of
the finite values, NaN when there is none. -/
def pmean (vs : List PValue) : PValue :=
  let fins := vs.filterMap (fun v =>
    match v with
    | .fin q => some q
    | _ => none)
  if fins.isEmpty then .nan else .fin (fins.sum / (fins.length : ℚ))

/-- One processed census row as read back by the merge script; the
numeric census columns are abstracted into one payload field. -/
structure CensusP where
  zip : String
  payload : ℚ
deriving DecidableEq, Repr

/-- One ZCTA boundary record of the shapefile. -/
structure ZipBoundary where
  zip : String
  geometry : String
deriving DecidableEq, Repr

/-- Step (a) output: a census row optionally carrying a geometry. -/
structure CensusGeo where
  zip : String
  payload : ℚ
  geometry : Option String
deriving DecidableEq, Repr

/-- Step (a): `census_df.merge(zip_boundaries, on="ZIP Code",
how="left")` — every census row is kept; a missing boundary leaves a
null geometry; each matching boundary row produces an output row. -/
def merge_census_boundaries (census : List CensusP) (bounds : List ZipBoundary) :
    List CensusGeo :=
  census.flatMap (fun c =>
    let ms := bounds.filter (fun b => b.zip == c.zip)
    if ms.isEmpty then [{ zip := c.zip, payload := c.payload, geometry := none }]
    else ms.map (fun b =>
      { zip := c.zip, payload := c.payload, geometry := some b.geometry }))

/-- One cleaned location record as read by the merge script. -/
structure LocationRec where
  locationId : String
  chainName : String
  zip : String
  latitude : PValue
  longitude : PValue
deriving DecidableEq, Repr

/-- One row of `zip_location_summary` before the census merge. -/
structure ZipLocationSummary where
  zip : String
  storeCount : ℕ
  chainDistribution : List (String × ℕ)
  avgLatitude : PValue
  avgLongitude : PValue
deriving DecidableEq, Repr

/-- `location_df.groupby("ZIP Code").agg(...)`: one row per distinct
ZIP (in ascending key order, as pandas sorts group keys) with store
count, chain-name frequency mapping, and mean coordinates. -/
def zip_location_summary_of (locs : List LocationRec) : List ZipLocationSummary :=
  (sortStrings (dedupFirst (locs.map (fun l => l.zip)))).map (fun z =>
    let group := locs.filter (fun l => l.zip == z)
    { zip := z
      storeCount := group.length
      chainDistribution := counter (group.map (fun l => l.chainName))
      avgLatitude := pmean (group.map (fun l => l.latitude))
      avgLongitude := pmean (group.map (fun l => l.longitude)) })

/-- One row after step (b); the census columns are null when the left
row's ZIP has no census match. -/
structure ZipLocCensusRow where
  zip : String
  storeCount : ℕ
  chainDistribution : List (String × ℕ)
  avgLatitude : PValue
  avgLongitude : PValue
  censusPayload : Option ℚ
  geometry : Option String
deriving DecidableEq, Repr

/-- Step (b): `zip_location_summary.merge(census_df, on="ZIP Code",
how="left")` — the *location summary* is the left side, so its rows are
all kept; census rows whose ZIP has no store are dropped here. -/
def step_b (census_geo : List CensusGeo) (summary : List ZipLocationSummary) :
    List ZipLocCensusRow :=
  summary.flatMap (fun srow =>
    let ms := census_geo.filter (fun c => c.zip == srow.zip)
    if ms.isEmpty then
      [{ zip := srow.zip, storeCount := srow.storeCount
         chainDistribution := srow.chainDistribution
         avgLatitude := srow.avgLatitude, avgLongitude := srow.avgLongitude
         censusPayload := none, geometry := none }]
    else ms.map (fun c =>
      { zip := srow.zip, storeCount := srow.storeCount
        chainDistribution := srow.chainDistribution
        avgLatitude := srow.avgLatitude, avgLongitude := srow.avgLongitude
        censusPayload := some c.payload, geometry := c.geometry }))

/-- One row of `zip_product_complete`: per-(ZIP, category) product
aggregates (numeric fields abstracted into one payload) plus the
keyword-frequency mapping, already filled with the empty mapping when
missing. -/
structure ZipProductRow where
  zip : String
  category : String
  productStats : ℚ
  keywordFrequency : List (String × ℕ)
deriving DecidableEq, Repr

/-- One row of the final merged table `zip_product_location_complete`.
Product-side columns are null when the ZIP had no product data. -/
structure FinalRow where
  zip : String
  storeCount : ℕ
  chainDistribution : List (String × ℕ)
  avgLatitude : PValue
  avgLongitude : PValue
  censusPayload : Option ℚ
  geometry : Option String
  category : Option String
  productStats : Option ℚ
  keywordFrequency : Option (List (String × ℕ))
deriving DecidableEq, Repr

/-- Step (d): `zip_location_summary.merge(zip_product_complete,
on="ZIP Code", how="left")`. -/
def step_d (zlc : List ZipLocCensusRow) (prod : List ZipProductRow) :
    List FinalRow :=
  zlc.flatMap (fun a =>
    let ms := prod.filter (fun p => p.zip == a.zip)
    if ms.isEmpty then
      [{ zip := a.zip, storeCount := a.storeCount
         chainDistribution := a.chainDistribution
         avgLatitude := a.avgLatitude, avgLongitude := a.avgLongitude
         censusPayload := a.censusPayload, geometry := a.geometry
         category := none, productStats := none, keywordFrequency := none }]
    else ms.map (fun p =>
      { zip := a.zip, storeCount := a.storeCount
        chainDistribution := a.chainDistribution
        avgLatitude := a.avgLatitude, avgLongitude := a.avgLongitude
        censusPayload := a.censusPayload, geometry := a.geometry
        category := some p.category, productStats := some p.productStats
        keywordFrequency := some p.keywordFrequency }))

/-- A cell of a final row is missing when an `Option` column is `none`
or a float column is NaN — exactly what `dropna()` looks for. -/
def FinalRow.hasNull (r : FinalRow) : Bool :=
  r.avgLatitude == .nan || r.avgLongitude == .nan
  || r.censusPayload.isNone || r.geometry.isNone
  || r.category.isNone || r.productStats.isNone
  || r.keywordFrequency.isNone

/-- `zip_product_location_complete.dropna()`: drop every row containing
a missing value. -/
def dropna_final (rows : List FinalRow) : List FinalRow :=
  rows.filter (fun r => !r.hasNull)

/-- The full join chain of the merge script: step (a), the location
grouping, step (b), step (d), then the drop-null step, producing
`zip_product_location_filtered`. -/
def zip_product_location_filtered (census : List CensusP)
    (bounds : List ZipBoundary) (locs : List LocationRec)
    (prod : List ZipProductRow) : List FinalRow :=
  dropna_final
    (step_d
      (step_b (merge_census_boundaries census bounds)
        (zip_location_summary_of locs))
      prod)

/-! ## Claim C1 — most-recent price of the Temporal Aggregator -/

/-- A two-observation group whose chronologically later observation
comes first in input order. -/
def c1_obs1 : Obs :=
  { productId := "P1", locationId := "00000001", quantity := 12
    uom := "ct", brand := "Kroger", category := "Egg"
    description := "Grade A Eggs", dateRetrieved := 2
    pricePerUnit := .fin 2, promoPrice := 0, promoPerUnit := .fin 0 }

def c1_obs2 : Obs :=
  { c1_obs1 with dateRetrieved := 1, pricePerUnit := .fin 3 }

/-- C1: the claim says `Most_Recent_Price` is the per-unit price of the
observation with the chronologically last date, regardless of the
input order of the group's rows.  The code takes `x.iloc[-1]`, the
last row in input order, without sorting by date: on a group whose
later-dated observation (price 2) precedes its earlier-dated one
(price 3), the code returns 3 while the observation at the maximal
date has price 2, and reversing the input order changes the answer. -/
theorem C1_most_recent_price_is_input_order :
    c1_obs1.groupKey = c1_obs2.groupKey ∧
    Most_Recent_Date [c1_obs1, c1_obs2] = some 2 ∧
    c1_obs1.dateRetrieved = 2 ∧ c1_obs1.pricePerUnit = PValue.fin 2 ∧
    c1_obs2.dateRetrieved = 1 ∧ c1_obs2.pricePerUnit = PValue.fin 3 ∧
    Most_Recent_Price [c1_obs1, c1_obs2] = PValue.fin 3 ∧
    Most_Recent_Price [c1_obs2, c1_obs1] = PValue.fin 2 ∧
    PValue.fin 3 ≠ PValue.fin 2 := by
  refine ⟨rfl, rfl, rfl, rfl, rfl, rfl, ?_, ?_, by decide⟩ <;> decide

/-! ## Claim C3 — Census Normalizer percentages -/

/-- A census row with zero total population but a positive poverty
count: the division yields +infinity, which `fillna(0)` leaves alone. -/
def c3_row_pos : CensusRaw :=
  { zip := "00000", totalPopulation := .fin 0, povertyCount := .fin 5
    snapHouseholds := .fin 0, whitePop := .fin 0, blackPop := .fin 0
    amIndianPop := .fin 0, pacificPop := .fin 0, asianPop := .fin 0
    otherRacePop := .fin 0, twoOrMorePop := .fin 0, hsGrad := .fin 0
    bachelors := .fin 0, masters := .fin 0, doctorate := .fin 0 }

/-- The same row with a zero poverty count (the 0/0 case). -/
def c3_row_zero : CensusRaw := { c3_row_pos with povertyCount := .fin 0 }

/-- The spec's worked example: ZIP 00601, population 16721,
poverty count 10199. -/
def c3_row_example : CensusRaw :=
  { c3_row_pos with zip := "00601", totalPopulation := .fin 16721
                    povertyCount := .fin 10199 }

/-- C3: the claim says every percentage field is count/total in [0,1]
and exactly 0 whenever total population is 0.  The code divides and
then fills NaN with 0 — but a positive count over a zero population is
+infinity, not NaN, so the fill step misses it and the output field is
+infinity (the 0/0 case does become 0, and positive populations give
the exact ratio, as on the spec's ZIP 00601 example). -/
theorem C3_zero_population_gives_inf :
    (process_census_row c3_row_pos).povertyRate = PValue.inf ∧
    PValue.inf ≠ PValue.fin 0 ∧
    (process_census_row c3_row_zero).povertyRate = PValue.fin 0 ∧
    (process_census_row c3_row_example).povertyRate =
      PValue.fin (10199 / 16721) := by
  refine ⟨?_, by simp, ?_, ?_⟩ <;>
    norm_num [process_census_row, censusPct, pdiv, fillna0_nan,
      fillna0_fin, fillna0_inf, c3_row_pos, c3_row_zero, c3_row_example]

/-! ## Claim C5 — the inactive-row filter of the Product Cleaner -/

theorem inactive_eq_true_iff (r : ProductRow) :
    r.inactive = true ↔
      ((∃ s, r.stockLevel = Cell.str s ∧ pyLower s = "unknown") ∧
        r.regularPrice = 0 ∧ r.promoPrice = 0) := by
  unfold ProductRow.inactive
  cases h : r.stockLevel with
  | str s => simp [h, and_assoc]
  | num q => simp [h]
  | nan => simp [h]

/-- A row with stock level "UnKnown" but regular price 5. -/
def c5_row : ProductRow :=
  { productId := "P1", locationId := "00000001", category := "Egg"
    quantity := 12, uom := "ct", regularPrice := 5, promoPrice := 0
    pricePerUnit := .fin 1, promoPerUnit := .fin 0
    stockLevel := .str "UnKnown", dateRetrieved := "2025-03-01" }

/-- C5: a row is dropped by the inactive filter iff its stock level is
a string that case-insensitively equals "unknown" AND its regular
price is 0 AND its promo price is 0; this filter is the sole row
exclusion apart from deduplication, and a row with stock level
"UnKnown" but regular price 5.00 is retained. -/
theorem C5_inactive_filter_iff :
    (∀ (rows : List ProductRow) (r : ProductRow),
        r ∈ filter_inactive rows ↔
          (r ∈ rows ∧
            ¬((∃ s, r.stockLevel = Cell.str s ∧ pyLower s = "unknown") ∧
              r.regularPrice = 0 ∧ r.promoPrice = 0))) ∧
    (∀ rows : List ProductRow,
        clean_product_rows rows = drop_duplicates (filter_inactive rows)) ∧
    c5_row ∈ filter_inactive [c5_row] := by
  refine ⟨?_, fun _ => rfl, by decide⟩
  intro rows r
  rw [filter_inactive, List.mem_filter]
  constructor
  · rintro ⟨hmem, hni⟩
    refine ⟨hmem, fun hc => ?_⟩
    rw [(inactive_eq_true_iff r).2 hc] at hni
    simp at hni
  · rintro ⟨hmem, hnc⟩
    refine ⟨hmem, ?_⟩
    cases hI : r.inactive
    · rfl
    · exact absurd ((inactive_eq_true_iff r).1 hI) hnc

/-! ## Claim C6 — promo frequency of the Temporal Aggregator -/

theorem round2_bounds {q : ℚ} (h0 : 0 ≤ q) (h1 : q ≤ 1) :
    0 ≤ round2 q ∧ round2 q ≤ 1 := by
  unfold round2
  have hlo : (0 : ℤ) ≤ round (q * 100) := by
    rw [round_eq]
    refine Int.le_floor.2 ?_
    push_cast
    nlinarith
  have hhi : round (q * 100) ≤ 100 := by
    rw [round_eq]
    have hle : (⌊q * 100 + 1 / 2⌋ : ℤ) ≤ ⌊(100 : ℚ) + 1 / 2⌋ := by
      apply Int.floor_le_floor
      nlinarith
    have h100 : (⌊(100 : ℚ) + 1 / 2⌋ : ℤ) = 100 := by
      rw [Int.floor_eq_iff]
      norm_num
    omega
  constructor
  · apply div_nonneg _ (by norm_num)
    exact_mod_cast hlo
  · rw [div_le_one (by norm_num)]
    exact_mod_cast hhi

/-- C6: for every group of the Temporal Aggregator, the promo frequency
equals the count of promo>0 observations divided by the total
observation count rounded to two decimals, lies in [0,1], and is 0
when both counts are 0 (for an output row the group is nonempty, so
the 0/0 case only arises from the fillna(0) on an empty series). -/
theorem C6_promo_frequency (g : List Obs) :
    0 ≤ Promo_Frequency g ∧ Promo_Frequency g ≤ 1 ∧
    (g ≠ [] →
      Promo_Frequency g =
        round2 ((Promo_Observations g : ℚ) / (Total_Observations g : ℚ))) ∧
    (Promo_Observations g = 0 ∧ Total_Observations g = 0 →
      Promo_Frequency g = 0) := by
  by_cases hg : g.length = 0
  · rw [Promo_Frequency, if_pos hg]
    refine ⟨le_refl 0, by norm_num, fun hne => ?_, fun _ => rfl⟩
    exact absurd (List.length_eq_zero.1 hg) hne
  · have hpos : 0 < (g.length : ℚ) := by
      have := Nat.pos_of_ne_zero hg
      exact_mod_cast this
    have hple : Promo_Observations g ≤ g.length :=
      List.length_filter_le _ g
    have hq0 : 0 ≤ (Promo_Observations g : ℚ) / (g.length : ℚ) :=
      div_nonneg (by positivity) (le_of_lt hpos)
    have hq1 : (Promo_Observations g : ℚ) / (g.length : ℚ) ≤ 1 := by
      rw [div_le_one hpos]
      exact_mod_cast hple
    have hb := round2_bounds hq0 hq1
    rw [Promo_Frequency, if_neg hg]
    exact ⟨hb.1, hb.2, fun _ => rfl, fun hc => absurd hc.2 hg⟩

/-- A one-observation group carrying a promo price. -/
def c6_obs : Obs :=
  { productId := "P2", locationId := "00000002", quantity := 20
    uom := "oz", brand := "Kroger", category := "Bread"
    description := "Wheat Sandwich Bread", dateRetrieved := 1
    pricePerUnit := .fin 1, promoPrice := 1
    promoPerUnit := .fin 1 }

/-- C6 witness: the promo-frequency facts evaluated on a concrete
one-row group with one promo observation. -/
theorem C6_promo_frequency_witness :
    0 ≤ Promo_Frequency [c6_obs] ∧ Promo_Frequency [c6_obs] ≤ 1 ∧
    Promo_Frequency [c6_obs] =
      round2 ((Promo_Observations [c6_obs] : ℚ) /
        (Total_Observations [c6_obs] : ℚ)) :=
  ⟨(C6_promo_frequency [c6_obs]).1, (C6_promo_frequency [c6_obs]).2.1,
   (C6_promo_frequency [c6_obs]).2.2.1 (by simp)⟩

/-! ## Claim C2 — join order and anchor of the Spatial/ZIP Joiner -/

theorem step_b_keeps_left_rows (cg : List CensusGeo)
    (summary : List ZipLocationSummary) :
    ∀ srow ∈ summary,
      ∃ row ∈ step_b cg summary,
        row.zip = srow.zip ∧ row.storeCount = srow.storeCount ∧
        row.chainDistribution = srow.chainDistribution := by
  intro srow hs
  unfold step_b
  by_cases hms : (cg.filter (fun c => c.zip == srow.zip)).isEmpty
  · refine ⟨{ zip := srow.zip, storeCount := srow.storeCount
              chainDistribution := srow.chainDistribution
              avgLatitude := srow.avgLatitude
              avgLongitude := srow.avgLongitude
              censusPayload := none, geometry := none },
            List.mem_flatMap.2 ⟨srow, hs, ?_⟩, rfl, rfl, rfl⟩
    rw [if_pos hms]
    exact List.mem_singleton.2 rfl
  · obtain ⟨c, hc⟩ :=
      List.exists_mem_of_ne_nil _ (fun h => hms (List.isEmpty_iff.2 h))
    refine ⟨{ zip := srow.zip, storeCount := srow.storeCount
              chainDistribution := srow.chainDistribution
              avgLatitude := srow.avgLatitude
              avgLongitude := srow.avgLongitude
              censusPayload := some c.payload, geometry := c.geometry },
            List.mem_flatMap.2 ⟨srow, hs, ?_⟩, rfl, rfl, rfl⟩
    rw [if_neg hms]
    exact List.mem_map.2 ⟨c, hc, rfl⟩

theorem step_b_rows_from_left (cg : List CensusGeo)
    (summary : List ZipLocationSummary) :
    ∀ row ∈ step_b cg summary,
      ∃ srow ∈ summary, row.zip = srow.zip := by
  intro row hr
  unfold step_b at hr
  obtain ⟨srow, hs, hmem⟩ := List.mem_flatMap.1 hr
  refine ⟨srow, hs, ?_⟩
  by_cases hms : (cg.filter (fun c => c.zip == srow.zip)).isEmpty
  · rw [if_pos hms] at hmem
    rw [List.mem_singleton.1 hmem]
  · rw [if_neg hms] at hmem
    obtain ⟨c, _, hceq⟩ := List.mem_map.1 hmem
    rw [← hceq]

/-- Census table, locations, and summary used for the C2 evidence: a
census ZIP (11111) with no store, and a store ZIP (22222) with no
census row. -/
def c2_census : List CensusP := [{ zip := "11111", payload := 1 }]

def c2_locations : List LocationRec :=
  [{ locationId := "L1", chainName := "Kroger", zip := "22222"
     latitude := .fin 40, longitude := .fin (-75) }]

/-- C2 counterexample: the claim says step (b) left-joins the location
summary onto the census-anchored accumulator, preserving every census
ZIP row.  In the code the location summary is the left side of the
merge: with census ZIP 11111 and a single store in ZIP 22222, the
step-(b) output consists of the single row for 22222 and the census
ZIP 11111 is gone. -/
theorem C2_census_zip_not_preserved :
    ((step_b (merge_census_boundaries c2_census [])
        (zip_location_summary_of c2_locations)).map (fun r => r.zip))
      = ["22222"] ∧
    "11111" ∈ c2_census.map (fun c => c.zip) ∧
    "11111" ∉ ((step_b (merge_census_boundaries c2_census [])
        (zip_location_summary_of c2_locations)).map (fun r => r.zip)) := by
  refine ⟨by decide, by decide, by decide⟩

/-- C2 (amended): step (a) is census left-joined with the boundary
geometry as the claim states, but step (b) uses the per-ZIP location
summary as the LEFT side and left-joins the census-plus-geometry table
onto it: every location-summary row survives step (b) with its store
count and chain distribution, and every step-(b) row stems from a
location-summary row; census ZIPs with no store are dropped at this
step. -/
theorem C2_amended_location_anchor (census : List CensusP)
    (bounds : List ZipBoundary) (locs : List LocationRec) :
    (∀ c ∈ census, ∃ row ∈ merge_census_boundaries census bounds,
        row.zip = c.zip ∧ row.payload = c.payload) ∧
    (∀ srow ∈ zip_location_summary_of locs,
        ∃ row ∈ step_b (merge_census_boundaries census bounds)
            (zip_location_summary_of locs),
          row.zip = srow.zip ∧ row.storeCount = srow.storeCount ∧
          row.chainDistribution = srow.chainDistribution) ∧
    (∀ row ∈ step_b (merge_census_boundaries census bounds)
        (zip_location_summary_of locs),
        ∃ srow ∈ zip_location_summary_of locs, row.zip = srow.zip) := by
  refine ⟨?_, step_b_keeps_left_rows _ _, step_b_rows_from_left _ _⟩
  intro c hc
  unfold merge_census_boundaries
  by_cases hms : (bounds.filter (fun b => b.zip == c.zip)).isEmpty
  · refine ⟨{ zip := c.zip, payload := c.payload, geometry := none },
            List.mem_flatMap.2 ⟨c, hc, ?_⟩, rfl, rfl⟩
    rw [if_pos hms]
    exact List.mem_singleton.2 rfl
  · obtain ⟨b, hb⟩ :=
      List.exists_mem_of_ne_nil _ (fun h => hms (List.isEmpty_iff.2 h))
    refine ⟨{ zip := c.zip, payload := c.payload, geometry := some b.geometry },
            List.mem_flatMap.2 ⟨c, hc, ?_⟩, rfl, rfl⟩
    rw [if_neg hms]
    exact List.mem_map.2 ⟨b, hb, rfl⟩

/-- C2 witness: on the concrete tables, the summary row for ZIP 22222
survives step (b) with its store count and chain distribution. -/
theorem C2_amended_location_anchor_witness :
    ∃ row ∈ step_b (merge_census_boundaries c2_census [])
        (zip_location_summary_of c2_locations),
      row.zip = "22222" ∧ row.storeCount = 1 ∧
      row.chainDistribution = [("Kroger", 1)] :=
  (C2_amended_location_anchor c2_census [] c2_locations).2.1
    { zip := "22222", storeCount := 1
      chainDistribution := [("Kroger", 1)]
      avgLatitude := pmean [PValue.fin 40]
      avgLongitude := pmean [PValue.fin (-75)] }
    (List.mem_singleton.2 rfl)

/-! ## Claim C9 — the drop-null step of the final merge -/

theorem opt_isSome_of_isNone_false {α : Type} (o : Option α)
    (h : o.isNone = false) : o.isSome = true := by
  cases o <;> simp_all

theorem hasNull_false_components (r : FinalRow) (h : r.hasNull = false) :
    r.censusPayload.isSome = true ∧ r.geometry.isSome = true ∧
    r.category.isSome = true ∧ r.productStats.isSome = true ∧
    r.keywordFrequency.isSome = true ∧
    r.avgLatitude ≠ PValue.nan ∧ r.avgLongitude ≠ PValue.nan := by
  unfold FinalRow.hasNull at h
  rw [Bool.or_eq_false_iff, Bool.or_eq_false_iff, Bool.or_eq_false_iff,
      Bool.or_eq_false_iff, Bool.or_eq_false_iff, Bool.or_eq_false_iff] at h
  obtain ⟨⟨⟨⟨⟨⟨h1, h2⟩, h3⟩, h4⟩, h5⟩, h6⟩, h7⟩ := h
  exact ⟨opt_isSome_of_isNone_false _ h3, opt_isSome_of_isNone_false _ h4,
         opt_isSome_of_isNone_false _ h5, opt_isSome_of_isNone_false _ h6,
         opt_isSome_of_isNone_false _ h7,
         by simpa using h1, by simpa using h2⟩

/-- C9: a row is in the final filtered table iff it came out of the
final left-join and contains no missing value; consequently every row
of the Spatial/ZIP Joiner's output has a non-null value in every
column (each Option column is populated and neither coordinate mean is
NaN). -/
theorem C9_dropna_no_partial_rows (census : List CensusP)
    (bounds : List ZipBoundary) (locs : List LocationRec)
    (prod : List ZipProductRow) :
    (∀ r : FinalRow,
        r ∈ zip_product_location_filtered census bounds locs prod ↔
          (r ∈ step_d (step_b (merge_census_boundaries census bounds)
              (zip_location_summary_of locs)) prod ∧
           r.hasNull = false)) ∧
    (∀ r ∈ zip_product_location_filtered census bounds locs prod,
        r.censusPayload.isSome = true ∧ r.geometry.isSome = true ∧
        r.category.isSome = true ∧ r.productStats.isSome = true ∧
        r.keywordFrequency.isSome = true ∧
        r.avgLatitude ≠ PValue.nan ∧ r.avgLongitude ≠ PValue.nan) := by
  have hmem : ∀ r : FinalRow,
      r ∈ zip_product_location_filtered census bounds locs prod ↔
        (r ∈ step_d (step_b (merge_census_boundaries census bounds)
            (zip_location_summary_of locs)) prod ∧
         r.hasNull = false) := by
    intro r
    unfold zip_product_location_filtered dropna_final
    simp [List.mem_filter]
  exact ⟨hmem, fun r hr => hasNull_false_components r ((hmem r).1 hr).2⟩

/-- Concrete complete tables for the C9 witness: one ZIP with census,
boundary, store, and product data all present. -/
def c9_census : List CensusP := [{ zip := "33333", payload := 3 }]

def c9_bounds : List ZipBoundary := [{ zip := "33333", geometry := "zcta33333" }]

def c9_locs : List LocationRec :=
  [{ locationId := "L9", chainName := "Kroger", zip := "33333"
     latitude := .fin 39, longitude := .fin (-76) }]

def c9_prod : List ZipProductRow :=
  [{ zip := "33333", category := "Egg", productStats := 2
     keywordFrequency := [("grade", 1)] }]

/-- The single row the merge produces from the C9 witness tables. -/
def c9_row : FinalRow :=
  { zip := "33333", storeCount := 1
    chainDistribution := counter ["Kroger"]
    avgLatitude := pmean [PValue.fin 39]
    avgLongitude := pmean [PValue.fin (-76)]
    censusPayload := some 3, geometry := some "zcta33333"
    category := some "Egg", productStats := some 2
    keywordFrequency := some [("grade", 1)] }

/-- C9 witness: on the concrete tables, the output row has every
column populated. -/
theorem C9_dropna_no_partial_rows_witness :
    c9_row.censusPayload.isSome = true ∧ c9_row.geometry.isSome = true ∧
    c9_row.category.isSome = true ∧ c9_row.productStats.isSome = true ∧
    c9_row.keywordFrequency.isSome = true ∧
    c9_row.avgLatitude ≠ PValue.nan ∧ c9_row.avgLongitude ≠ PValue.nan :=
  (C9_dropna_no_partial_rows c9_census c9_bounds c9_locs c9_prod).2 c9_row
    (List.mem_singleton.2 rfl)

/-! ## Claim C10 — Location ID padding -/

theorem zfill8_eq (s : String) :
    (8 ≤ s.data.length ∧ zfill 8 s = s) ∨
    (s.data.length < 8 ∧ s.data = [] ∧ zfill 8 s = String.mk (zeros 8)) ∨
    (∃ c rest, s.data.length < 8 ∧ s.data = c :: rest ∧ (c = '+' ∨ c = '-') ∧
       zfill 8 s = String.mk (c :: (zeros (8 - s.data.length) ++ rest))) ∨
    (∃ c rest, s.data.length < 8 ∧ s.data = c :: rest ∧ ¬(c = '+' ∨ c = '-') ∧
       zfill 8 s = String.mk (zeros (8 - s.data.length) ++ s.data)) := by
  unfold zfill
  by_cases h8 : 8 ≤ s.data.length
  · exact Or.inl ⟨h8, if_pos h8⟩
  · rw [if_neg h8]
    rcases hd : s.data with _ | ⟨c0, rest0⟩
    · rw [hd] at h8
      exact Or.inr (Or.inl ⟨by omega, rfl, rfl⟩)
    · rw [hd] at h8
      by_cases hsign : c0 = '+' ∨ c0 = '-'
      · exact Or.inr (Or.inr (Or.inl
          ⟨c0, rest0, by omega, rfl, hsign, if_pos hsign⟩))
      · exact Or.inr (Or.inr (Or.inr
          ⟨c0, rest0, by omega, rfl, hsign, if_neg hsign⟩))

/-- C10 (amended): padding never truncates and the padded ID always
has length max(8, input length); an ID of 8 or more characters is
returned unchanged; an ID not starting with a sign character gains
only leading zeros, so the original ID is a suffix of the result; but
an ID starting with '+' or '-' keeps its sign first and the zeros are
inserted after the sign, so the original ID is not in general a
suffix. -/
theorem C10_pad_location_id_amended (s : String) :
    (pad_location_id s).data.length = max 8 s.data.length ∧
    (8 ≤ s.data.length → pad_location_id s = s) ∧
    (∀ c rest, s.data = c :: rest → ¬(c = '+' ∨ c = '-') →
       pad_location_id s = String.mk (zeros (8 - s.data.length) ++ s.data) ∧
       List.IsSuffix s.data (pad_location_id s).data) ∧
    (∀ c rest, s.data = c :: rest → (c = '+' ∨ c = '-') →
       s.data.length < 8 →
       pad_location_id s =
         String.mk (c :: (zeros (8 - s.data.length) ++ rest))) := by
  have hz : ∀ n, (zeros n).length = n := fun n => List.length_replicate n '0'
  have hpz : ∀ t : String, pad_location_id t = zfill 8 t := fun _ => rfl
  refine ⟨?_, ?_, ?_, ?_⟩
  · rcases zfill8_eq s with ⟨h8, heq⟩ | ⟨hlt, hd, heq⟩ |
      ⟨c, rest, hlt, hd, _, heq⟩ | ⟨c, rest, hlt, hd, _, heq⟩
    · rw [hpz, heq]
      exact (Nat.max_eq_right h8).symm
    · rw [hpz, heq]
      show (zeros 8).length = max 8 s.data.length
      rw [hz, hd]
      simp
    · rw [hpz, heq]
      show (c :: (zeros (8 - s.data.length) ++ rest)).length = max 8 s.data.length
      rw [hd]
      simp only [List.length_cons, List.length_append, hz]
      omega
    · rw [hpz, heq]
      show (zeros (8 - s.data.length) ++ s.data).length = max 8 s.data.length
      rw [hd]
      simp only [List.length_cons, List.length_append, hz]
      omega
  · intro h8
    rcases zfill8_eq s with ⟨_, heq⟩ | ⟨hlt, _, _⟩ |
      ⟨c, rest, hlt, _, _, _⟩ | ⟨c, rest, hlt, _, _, _⟩
    · rw [hpz, heq]
    · omega
    · omega
    · omega
  · intro c rest hd hnsign
    rcases zfill8_eq s with ⟨h8, heq⟩ | ⟨_, hnil, _⟩ |
      ⟨c0, rest0, _, hd0, hsign0, _⟩ | ⟨c0, rest0, _, _, _, heq⟩
    · have hz0 : 8 - s.data.length = 0 := by omega
      constructor
      · rw [hpz, heq, hz0]
        rfl
      · rw [hpz, heq]
    · rw [hnil] at hd
      exact absurd hd (by simp)
    · rw [hd0] at hd
      injection hd with hc _
      rw [← hc] at hnsign
      exact absurd hsign0 hnsign
    · constructor
      · rw [hpz, heq]
      · rw [hpz, heq]
        exact ⟨zeros (8 - s.data.length), rfl⟩
  · intro c rest hd hsign hlen
    rcases zfill8_eq s with ⟨h8, _⟩ | ⟨_, hnil, _⟩ |
      ⟨c0, rest0, _, hd0, _, heq⟩ | ⟨c0, rest0, _, hd0, hnsign0, _⟩
    · omega
    · rw [hnil] at hd
      exact absurd hd (by simp)
    · rw [hpz, heq]
      rw [hd0] at hd
      injection hd with hc hr
      rw [hc, hr]
    · rw [hd0] at hd
      injection hd with hc _
      rw [hc] at hnsign0
      exact absurd hsign hnsign0

/-- C10 counterexample: the claim says every padded ID has the
original ID as a suffix ("gains only leading zeros").  Python `zfill`
inserts the zeros after a leading sign: "-1" pads to "-0000001", whose
suffix of length 2 is "01", not "-1"; the all-leading-zeros result
"000000-1" is not what the code returns. -/
theorem C10_sign_counterexample :
    pad_location_id "-1" = "-0000001" ∧
    ¬ List.IsSuffix "-1".data "-0000001".data ∧
    pad_location_id "-1" ≠ "000000-1" := by
  refine ⟨by decide, by decide, by decide⟩

/-- C10 witness: the spec's own example — "9700336" pads to
"09700336", of which the original ID is a suffix. -/
theorem C10_pad_location_id_amended_witness :
    pad_location_id "9700336" =
      String.mk (zeros (8 - "9700336".data.length) ++ "9700336".data) ∧
    List.IsSuffix "9700336".data (pad_location_id "9700336").data :=
  (C10_pad_location_id_amended "9700336").2.2.1 '9' ['7', '0', '0', '3', '3', '6']
    (by decide) (by decide)

/-! ## Claim C4 — totality of the Product Cleaner transformations -/

/-- C4 counterexample: the claim says every transformation returns a
value and never raises, including on a missing or non-string
description and an arbitrary size string.  `classify_product` calls
`.lower()` on the raw cell, which raises AttributeError on the float
NaN of a missing description; and `extract_quantity` passes the first
`[\d.]+` run to `float`, which raises ValueError on a bare ".". -/
theorem C4_totality_counterexample :
    classify_product Cell.nan = Except.error "AttributeError" ∧
    extract_quantity "." = Except.error () := ⟨rfl, rfl⟩

/-- C4 (amended): classification returns a category for every string
description but raises on a missing (non-string) one; size parsing
returns the parsed first numeric run, the sentinel -1 when the string
has no digit-or-period character, and raises when the first run is not
a well-formed number; price normalization is total, coercing
non-numeric and missing price cells to the sentinel 0. -/
theorem C4_totality_amended :
    (∀ d : String, ∃ c : String, classify_product (Cell.str d) = Except.ok c) ∧
    (classify_product Cell.nan = Except.error "AttributeError") ∧
    (∀ s : String, firstRun isDigitDot s.data = none →
       extract_quantity s = Except.ok (-1)) ∧
    (∀ s : String, ∀ run : List Char, ∀ q : ℚ,
       firstRun isDigitDot s.data = some run → pyFloatRun run = some q →
       extract_quantity s = Except.ok q) ∧
    (to_numeric_fillna0 (Cell.str "two dollars") = 0 ∧
     to_numeric_fillna0 Cell.nan = 0 ∧
     to_numeric_fillna0 (Cell.str "3.99") = 399 / 100) := by
  refine ⟨fun d => ⟨_, rfl⟩, rfl, ?_, ?_, by decide, rfl, ?_⟩
  · intro s h
    simp [extract_quantity, h]
  · intro s run q h1 h2
    simp [extract_quantity, h1, h2]
  · rw [show to_numeric_fillna0 (Cell.str "3.99") =
        ((3 : ℕ) : ℚ) + ((99 : ℕ) : ℚ) / 10 ^ 2 from rfl]
    norm_num

/-- C4 witness: the amended totality facts evaluated on concrete
description and size strings. -/
theorem C4_totality_amended_witness :
    (∃ c : String, classify_product (Cell.str "Grade A Eggs") = Except.ok c) ∧
    extract_quantity "Each" = Except.ok (-1) ∧
    extract_quantity "12 oz" = Except.ok 12 :=
  ⟨C4_totality_amended.1 "Grade A Eggs",
   C4_totality_amended.2.2.1 "Each" (by decide),
   C4_totality_amended.2.2.2.1 "12 oz" ['1', '2'] 12 (by decide) (by decide)⟩

/-! ## Claim C7 — size parsing of the Product Cleaner -/

/-- C7 counterexample: the claim says the unit-of-measure is the
trailing alphabetic run of the size string.  The regex
`[a-zA-Z]+.*$` matches from the *first* letter to the end of the
string: for "2 pack 12" the code yields "pack 12" (which even
contains a digit) while the trailing alphabetic run is absent, and
for "12 fl oz" the code yields "fl oz" while the trailing alphabetic
run is "oz". -/
theorem C7_uom_counterexample :
    extract_uom "2 pack 12" = "pack 12" ∧
    spec_trailing_alpha_uom "2 pack 12" = "unit" ∧
    extract_uom "2 pack 12" ≠ spec_trailing_alpha_uom "2 pack 12" ∧
    extract_uom "12 fl oz" = "fl oz" ∧
    spec_trailing_alpha_uom "12 fl oz" = "oz" := by
  refine ⟨by decide, by decide, by decide, by decide, by decide⟩

/-- C7 (amended): quantity is the value of the first digit-or-period
run (-1 when there is none, an error when the run does not parse), and
the unit-of-measure is the whitespace-stripped substring from the
first letter of the size string to the end, "unit" when the string has
no letter; the spec's two examples "12 oz" → (12, "oz") and
"Each" → (-1, "Each") hold. -/
theorem C7_size_parsing_amended :
    extract_quantity "12 oz" = Except.ok 12 ∧ extract_uom "12 oz" = "oz" ∧
    extract_quantity "Each" = Except.ok (-1) ∧ extract_uom "Each" = "Each" ∧
    (∀ s : String, firstRun isDigitDot s.data = none →
       extract_quantity s = Except.ok (-1)) ∧
    (∀ s : String, (∀ c ∈ s.data, c.isAlpha = false) →
       extract_uom s = "unit") ∧
    (∀ s : String, ∀ pre rest : List Char,
       s.data = pre ++ rest → (∀ c ∈ pre, c.isAlpha = false) →
       (∀ c, rest.head? = some c → c.isAlpha = true) → rest ≠ [] →
       extract_uom s = String.mk (pyStrip rest)) := by
  refine ⟨rfl, by decide, rfl, by decide, ?_, ?_, ?_⟩
  · intro s h
    simp [extract_quantity, h]
  · intro s h
    have hnil : s.data.dropWhile (fun c => !c.isAlpha) = [] :=
      List.dropWhile_eq_nil_iff.2 (fun c hc => by simp [h c hc])
    simp [extract_uom, hnil]
  · intro s pre rest hd hpre hhead hne
    have hdw : ∀ pre2 : List Char, (∀ c ∈ pre2, c.isAlpha = false) →
        List.dropWhile (fun c => !c.isAlpha) (pre2 ++ rest) = rest := by
      intro pre2
      induction pre2 with
      | nil =>
          intro _
          cases hrest : rest with
          | nil => exact absurd hrest hne
          | cons r rs =>
              have hr : r.isAlpha = true := hhead r (by rw [hrest]; rfl)
              simp [List.dropWhile_cons, hr]
      | cons p ps ih =>
          intro hall
          have hp : p.isAlpha = false := hall p (List.mem_cons_self p ps)
          simp only [List.cons_append, List.dropWhile_cons, hp,
            Bool.not_false, if_true]
          exact ih (fun c hc => hall c (List.mem_cons_of_mem p hc))
    have hre : ¬ rest.isEmpty = true := by
      cases rest
      · exact absurd rfl hne
      · simp
    simp [extract_uom, hd, hdw pre hpre, hre]

/-- C7 witness: the amended characterization applied at concrete size
strings — a string with no numeric characters yields the quantity
sentinel, an all-digit string yields UOM "unit", and "12 oz" has UOM
equal to the stripped suffix starting at its first letter. -/
theorem C7_size_parsing_amended_witness :
    extract_quantity "??" = Except.ok (-1) ∧
    extract_uom "123" = "unit" ∧
    extract_uom "12 oz" = String.mk (pyStrip ['o', 'z']) :=
  ⟨C7_size_parsing_amended.2.2.2.2.1 "??" (by decide),
   C7_size_parsing_amended.2.2.2.2.2.1 "123" (by decide),
   C7_size_parsing_amended.2.2.2.2.2.2 "12 oz" ['1', '2', ' '] ['o', 'z']
     (by decide) (by decide)
     (fun c hc => by injection hc with h; rw [← h]; decide) (by decide)⟩

/-! ## Claim C8 — the Keyword Extractor -/

theorem flatMap_filterMap_surviving (L : List (List String)) :
    L.flatMap (fun wl => wl.filterMap surviving) =
      L.flatten.filterMap surviving := by
  induction L with
  | nil => rfl
  | cons wl rest ih => simp [ih]

theorem count_filterMap_surviving (l : List String) (t : String) :
    (l.filterMap surviving).count t =
      (l.filter (fun w => surviving w == some t)).length := by
  induction l with
  | nil => rfl
  | cons w rest ih =>
      cases hw : surviving w with
      | none => simp [List.filterMap_cons, hw, List.filter_cons, ih]
      | some u =>
          by_cases hut : u = t
          · subst hut
            simp [List.filterMap_cons, hw, List.filter_cons,
              List.count_cons, ih]
          · simp [List.filterMap_cons, hw, List.filter_cons,
              List.count_cons, hut, ih]

/-- C8: for each (location, category) group the Keyword Extractor
emits the list of all surviving tokens — each description lowercased,
whitespace-split, each token stripped of non-alphabetic characters,
with empty tokens and the literal words "egg"/"eggs"/"bread"
discarded — whose per-token counts form the frequency mapping over
the concatenation of all descriptions' tokens; a group with zero
surviving tokens emits the sentinel list ["other"]. -/
theorem C8_keyword_extractor (descriptions : List String) :
    ((((descriptions.map description_tokens).flatten.filterMap surviving)
        ≠ []) →
       group_keywords descriptions =
         (descriptions.map description_tokens).flatten.filterMap surviving ∧
       (∀ t : String,
         (group_keywords descriptions).count t =
           ((descriptions.map description_tokens).flatten.filter
             (fun w => surviving w == some t)).length)) ∧
    ((((descriptions.map description_tokens).flatten.filterMap surviving)
        = []) →
       group_keywords descriptions = ["other"]) ∧
    (∀ w t : String, surviving w = some t →
       t = String.mk ((w.data.filter Char.isAlpha).map Char.toLower) ∧
       t ≠ "" ∧ t ∉ (["egg", "eggs", "bread"] : List String)) := by
  have hkl : group_keywords descriptions =
      if ((descriptions.map description_tokens).flatten.filterMap
          surviving).isEmpty
      then ["other"]
      else (descriptions.map description_tokens).flatten.filterMap
        surviving := by
    rw [group_keywords, keyword_list, flatMap_filterMap_surviving]
  refine ⟨?_, ?_, ?_⟩
  · intro hne
    have hni : ¬ ((descriptions.map description_tokens).flatten.filterMap
        surviving).isEmpty = true := fun h => hne (List.isEmpty_iff.1 h)
    rw [hkl, if_neg hni]
    exact ⟨rfl, fun t => count_filterMap_surviving _ t⟩
  · intro heq
    rw [hkl, if_pos (List.isEmpty_iff.2 heq)]
  · intro w t hwt
    rw [surviving] at hwt
    rcases hck : clean_keyword w with _ | u
    · rw [hck] at hwt
      exact absurd hwt (by simp)
    · rw [hck] at hwt
      have hwt2 : (if u = "" then none else some u) = some t := hwt
      by_cases hu : u = ""
      · rw [if_pos hu] at hwt2
        exact absurd hwt2 (by simp)
      · rw [if_neg hu] at hwt2
        injection hwt2 with ht
        subst ht
        simp only [clean_keyword] at hck
        by_cases hex :
            String.mk ((w.data.filter Char.isAlpha).map Char.toLower) = "egg" ∨
            String.mk ((w.data.filter Char.isAlpha).map Char.toLower) = "eggs" ∨
            String.mk ((w.data.filter Char.isAlpha).map Char.toLower) = "bread"
        · rw [if_pos hex] at hck
          exact absurd hck (by simp)
        · rw [if_neg hex] at hck
          injection hck with hu2
          refine ⟨hu2.symm, hu, ?_⟩
          rw [← hu2]
          simpa using hex

/-- C8 witness: a group whose descriptions leave surviving tokens
emits exactly those tokens; a group whose only tokens are excluded
words and digits emits the sentinel ["other"]. -/
theorem C8_keyword_extractor_witness :
    group_keywords ["Large White Eggs 12ct"] =
      (["Large White Eggs 12ct"].map
        description_tokens).flatten.filterMap surviving ∧
    group_keywords ["Egg!! 123"] = ["other"] :=
  ⟨((C8_keyword_extractor ["Large White Eggs 12ct"]).1 (by decide)).1,
   (C8_keyword_extractor ["Egg!! 123"]).2.1 (by decide)⟩

end Grocery
